import Mathlib

/-!
Verification of the notification fan-out / cache-consistency core of a
FastAPI social-media backend, shallowly embedded from the Python source:

  app/services/notification_service.py  (NotificationService)
  app/services/like_service.py          (LikeService, cache invalidation)
  app/services/redis_service.py         (RedisService)
  app/websocket/manager.py              (WebSocketManager)
  app/schemas/notification_schema.py    (pydantic schemas)

The embedding models the database as lists of rows with an explicit
pending/committed split (SQLAlchemy session semantics), the Redis cache as
typed association lists keyed by user id plus a plain key set for the like
service, Python `datetime.utcnow()` as a strictly increasing clock (one tick
per call, 1440 ticks per day), and Python exceptions as `Except` values.
Side effects are recorded in an ordered trace so temporal claims can be
stated as facts about the trace.
-/

namespace App

/-- Python truthiness of an optional integer: `None` and `0` are falsy.
Used wherever the source writes `if some_id:` on an optional id. -/
def pyTruthyOpt : Option Nat → Bool
  | none => false
  | some n => n != 0

/-- Python `a or b` on an optional string (`None` and `""` are falsy),
as in `notification_data.sender_name or "Someone"`. -/
def pyOrStr (a : Option String) (b : String) : String :=
  match a with
  | none => b
  | some s => if s = "" then b else s

/-- Python exceptions that the embedded code can raise. -/
inductive PyErr
  | attrError
  | multipleResults
  | dbError
  | wsError
  | valueError (msg : String)
deriving DecidableEq, Repr

/-- Attribute lookup of a Redis method the source never defines:
`RedisService` (redis_service.py lines 5-23) implements only `set`, `get`,
`delete` and `close`, and no service defines or monkey-patches anything
else, so every call to `lpush`, `ltrim`, `lrange`, `incr`, `decr`, `setex`
or `delete_pattern` raises `AttributeError` before touching the cache. -/
def redisMissing (_method : String) : PyErr := .attrError

/-- `Result.scalar_one_or_none()`: none for zero rows, the row for exactly
one, `MultipleResultsFound` for more than one. -/
def scalarOneOrNone {α : Type} : List α → Except PyErr (Option α)
  | [] => .ok none
  | [a] => .ok (some a)
  | _ :: _ :: _ => .error .multipleResults

/-- Association-list lookup keyed by `Nat` (first match wins). -/
def alookup {α : Type} : List (Nat × α) → Nat → Option α
  | [], _ => none
  | (k, v) :: rest, u => if k = u then some v else alookup rest u

/-- Association-list update: replaces the first entry with the key, or
appends a fresh entry. -/
def aset {α : Type} : List (Nat × α) → Nat → α → List (Nat × α)
  | [], u, v => [(u, v)]
  | (k, w) :: rest, u, v =>
      if k = u then (u, v) :: rest else (k, w) :: aset rest u v

/-- Association-list removal of the first entry with the key. -/
def aremove {α : Type} : List (Nat × α) → Nat → List (Nat × α)
  | [], _ => []
  | (k, w) :: rest, u => if k = u then rest else (k, w) :: aremove rest u

/-! ## Notification data model (app/models/notification.py, schemas) -/

/-- `NotificationType` (notification_schema.py). -/
inductive NotifType
  | like
  | comment
  | reply
  | follow
  | mention
  | share
  | system
deriving DecidableEq, Repr

/-- `.value` of the enum: the string stored in the `type` column. -/
def NotifType.value : NotifType → String
  | .like => "like"
  | .comment => "comment"
  | .reply => "reply"
  | .follow => "follow"
  | .mention => "mention"
  | .share => "share"
  | .system => "system"

/-- A row of the `notifications` table. `created_at` and `read_at` are clock
ticks (1440 ticks per day). -/
structure NotifRow where
  id : Nat
  receiver_id : Nat
  sender_id : Option Nat
  type : String
  content : String
  related_post_id : Option Nat
  is_read : Bool
  created_at : Nat
  read_at : Option Nat
deriving DecidableEq, Repr

/-- A row of the `users` table (the fields the notification engine reads). -/
structure UserRow where
  id : Nat
  username : String
  full_name : Option String
  email : String
  profile_picture : Option String
deriving DecidableEq, Repr

/-- A row of the `comments` table (only the fields the notification engine
reads: primary key and author). -/
structure CommentRow where
  id : Nat
  user_id : Nat
deriving DecidableEq, Repr

/-- The durable store plus the SQLAlchemy session: `pending` holds rows
added with `db.add` but not yet committed; `commit` moves them into `rows`
and assigns ids from `nextId`; `rollback` drops them. -/
structure Db where
  rows : List NotifRow
  users : List UserRow
  comments : List CommentRow
  pending : List NotifRow
  nextId : Nat
deriving DecidableEq, Repr

/-- `SenderInfo` (notification_schema.py): all fields optional. -/
structure SenderInfo where
  id : Option Nat := none
  username : Option String := none
  full_name : Option String := none
  profile_picture : Option String := none
deriving DecidableEq, Repr

/-- Pydantic `NotificationResponse` (notification_schema.py lines 37-47):
`id`, `type`, `content`, `is_read`, `created_at` are required (no default);
`sender`, `related_post_id`, `read_at` default to `None`. -/
structure NotificationResponse where
  id : Nat
  type : String
  content : String
  sender : Option SenderInfo := none
  related_post_id : Option Nat := none
  is_read : Bool
  created_at : Nat
  read_at : Option Nat := none
deriving DecidableEq, Repr

/-! ## Cache, trace and system state -/

/-- The Redis state the notification engine can actually reach.  Only the
`user:N:unread_count` keys (absent key = `none`) are representable: the
`user:N:latest_notifications` list is never written, because the only
writers call `redis.lpush`/`redis.ltrim`, which `RedisService` does not
define, and the only reader calls `redis.lrange`, which it does not define
either.  The sole working counter write is `redis.set` in
`mark_all_as_read`; `incr`/`decr`/`setex` do not exist. -/
structure Cache where
  unread : List (Nat × Int)
deriving DecidableEq, Repr

/-- Ordered audit of the side effects an operation performs. -/
inductive Event
  | dbCommitEvt
  | wsSend (receiver : Nat) (action : String) (nid : Nat)
  | cacheLpush (user : Nat)
  | cacheLtrim (user : Nat)
  | cacheIncr (user : Nat)
  | cacheDecr (user : Nat)
  | cacheSetCounter (user : Nat) (v : Int)
  | cacheDelPattern (pat : String)
  | cacheDelKey (key : String)
  | emailEnqueue (receiver : Nat)
  | pushEnqueue (receiver : Nat)
deriving DecidableEq, Repr

/-- Whole-system state threaded through the notification engine. -/
structure SysState where
  db : Db
  cache : Cache
  clock : Nat
  trace : List Event
deriving DecidableEq, Repr

/-- `datetime.utcnow()`: returns the clock and advances it one tick. -/
def utcnowTick (s : SysState) : Nat × SysState :=
  (s.clock, { s with clock := s.clock + 1 })

/-- `self.db.add(notification)`. -/
def dbAdd (r : NotifRow) (s : SysState) : SysState :=
  { s with db := { s.db with pending := s.db.pending ++ [r] } }

/-- `await self.db.commit()`: pending rows become durable. -/
def dbCommit (s : SysState) : SysState :=
  { s with
    db := { s.db with
              rows := s.db.rows ++ s.db.pending,
              pending := [],
              nextId := s.db.nextId + s.db.pending.length },
    trace := s.trace ++ [Event.dbCommitEvt] }

/-- `await self.db.rollback()`: drops pending (uncommitted) rows only. -/
def dbRollback (s : SysState) : SysState :=
  { s with db := { s.db with pending := [] } }

/-- ORM mutation of an already-selected row followed by commit: updates the
row with the given primary key in place. -/
def dbUpdateRow (nid : Nat) (f : NotifRow → NotifRow) (s : SysState) :
    SysState :=
  { s with db := { s.db with
      rows := s.db.rows.map (fun r => if r.id = nid then f r else r) } }

/-- `redis.set(user:N:unread_count, v)` — one of the four methods
`RedisService` really defines. -/
def redisSetUnread (u : Nat) (v : Int) (s : SysState) : SysState :=
  { s with
    cache := { s.cache with unread := aset s.cache.unread u v },
    trace := s.trace ++ [Event.cacheSetCounter u v] }

/-! ## NotificationService.create_notification (lines 75-163) -/

/-- `NotificationCreate` (notification_schema.py lines 15-26). -/
structure NotificationCreate where
  receiver_id : Nat
  sender_id : Option Nat := none
  sender_name : Option String := none
  type : NotifType
  content : Option String := none
  related_post_id : Option Nat := none
  send_email : Bool := false
  send_push : Bool := false
deriving DecidableEq, Repr

/-- `template["message"].format(sender=..., content=...)` (lines 87-91):
the sender placeholder is `sender_name or "Someone"`, the content
placeholder is `content or ""`; only the system template uses content. -/
def renderMessage (t : NotifType) (sender_name content : Option String) :
    String :=
  let s := pyOrStr sender_name "Someone"
  let c := pyOrStr content ""
  match t with
  | .like => s ++ " liked your post"
  | .comment => s ++ " commented on your post"
  | .reply => s ++ " replied to your comment"
  | .follow => s ++ " started following you"
  | .mention => s ++ " mentioned you in a post"
  | .share => s ++ " shared your post"
  | .system => c

/-- The Notification row built at lines 94-102 (id assigned at commit from
the session sequence, modelled by `Db.nextId`). -/
def mkRow (nid : Nat) (nd : NotificationCreate) (t : Nat) : NotifRow :=
  { id := nid, receiver_id := nd.receiver_id, sender_id := nd.sender_id,
    type := nd.type.value,
    content := renderMessage nd.type nd.sender_name nd.content,
    related_post_id := nd.related_post_id, is_read := false,
    created_at := t, read_at := none }

/-- Failure injection for the collaborator calls `create_notification`
makes before it reaches the cache: the durable commit and the websocket
send.  Both `false` is the normal path. -/
structure FailSpec where
  commitFails : Bool := false
  wsFails : Bool := false
deriving DecidableEq, Repr

/-- The normal path: commit and websocket send succeed. -/
def noFail : FailSpec := {}

/-- The exception handler at lines 160-163: log, `db.rollback()`, re-raise. -/
def notifRaise (e : PyErr) (s : SysState) : Except PyErr NotifRow × SysState :=
  (.error e, dbRollback s)

/-- `NotificationService.create_notification` (lines 75-163).  The body is
one `try` block: template render, row construction with
`created_at=utcnow()`, `db.add`, `db.commit`, sender lookup (a read with no
side effect), realtime push over the websocket manager (action `new`), and
then `await self.redis.lpush(...)` (line 141) — a method `RedisService`
does not define, so the call raises `AttributeError` unconditionally.  The
handler at lines 160-163 logs, rolls back (a no-op for the committed row)
and re-raises.  Consequently the `ltrim`, the unread-counter `incr` and
the email/push enqueues (lines 142-154) are dead code, the function never
returns the row, and the cache is never touched. -/
def create_notification (fs : FailSpec) (nd : NotificationCreate)
    (s0 : SysState) : Except PyErr NotifRow × SysState :=
  let p := utcnowTick s0
  let row := mkRow p.2.db.nextId nd p.1
  let s1 := dbAdd row p.2
  if fs.commitFails then notifRaise .dbError s1 else
  let s2 := dbCommit s1
  if fs.wsFails then notifRaise .wsError s2 else
  let s3 := { s2 with
              trace := s2.trace ++ [Event.wsSend nd.receiver_id "new" row.id] }
  notifRaise (redisMissing "lpush") s3

/-! ## Type-specific wrappers (lines 213-334) -/

/-- Predicate of the dedup query at lines 226-233: rows matching
`(receiver, sender, related_post, type=like)`. -/
def likeMatch (owner liker post : Nat) (r : NotifRow) : Bool :=
  r.receiver_id == owner && r.sender_id == some liker &&
    r.related_post_id == some post && r.type == NotifType.like.value

/-- The `NotificationCreate` event `create_like_notification` builds at
lines 249-257 (liker display name resolved at lines 245-247). -/
def likeNdFor (post_id liker_id post_owner_id : Nat) (s : SysState) :
    NotificationCreate :=
  let liker := s.db.users.find? (fun u => u.id == liker_id)
  { receiver_id := post_owner_id, sender_id := some liker_id,
    sender_name := liker.map (fun u => pyOrStr u.full_name u.username),
    type := .like, related_post_id := some post_id,
    send_email := true, send_push := true }

/-- `create_like_notification` (lines 213-263): suppress self-likes, look
for an existing equivalent notification, bump only its `created_at` if
found, otherwise delegate to `create_notification` with email and push
enabled.  The outer except returns `None` on any error — in particular on
the `AttributeError` that `create_notification` always raises after its
commit and realtime push, so the no-existing-row path commits the row and
pushes it over the websocket but returns `None`. -/
def create_like_notification (fs : FailSpec) (post_id liker_id post_owner_id : Nat)
    (s : SysState) : Option NotifRow × SysState :=
  if liker_id = post_owner_id then (none, s)
  else
    match scalarOneOrNone (s.db.rows.filter (likeMatch post_owner_id liker_id post_id)) with
    | .error _ => (none, s)
    | .ok (some existing) =>
        let p := utcnowTick s
        let bumped := { existing with created_at := p.1 }
        let s1 := dbCommit (dbUpdateRow existing.id (fun r => { r with created_at := p.1 }) p.2)
        (some bumped, s1)
    | .ok none =>
        match create_notification fs (likeNdFor post_id liker_id post_owner_id s) s with
        | (.ok row, s1) => (some row, s1)
        | (.error _, s1) => (none, s1)

/-- `select(Comment.user_id).where(Comment.id == pid)` followed by
`scalar_one_or_none()`: the scalar result is the bare author id. -/
def queryCommentUserId (db : Db) (pid : Nat) :
    Except PyErr (Option Nat) :=
  scalarOneOrNone ((db.comments.filter (fun c => c.id == pid)).map (fun c => c.user_id))

/-- The attribute access `parent_comment.user_id` at line 284, where
`parent_comment` is the bare integer returned by
`select(Comment.user_id)...scalar_one_or_none()`: a Python `int` has no
attribute `user_id`, so this raises `AttributeError`. -/
def scalarUserIdAttr (_uid : Nat) : Except PyErr Nat :=
  .error .attrError

/-- Predicate of the dedup query at lines 296-303. -/
def commentMatch (receiver commenter post : Nat) (t : NotifType) (r : NotifRow) : Bool :=
  r.receiver_id == receiver && r.sender_id == some commenter &&
    r.related_post_id == some post && r.type == t.value

/-- `create_comment_notification` (lines 265-334).  Reply branch: fetch the
parent comment author via `select(Comment.user_id)` and test
`parent_comment and parent_comment.user_id != commenter_id` — the attribute
access raises, the outer except catches and returns `None`.  Comment
branch: suppress self-comments, dedup on (receiver, sender, post, type),
bump or create. -/
def create_comment_notification (fs : FailSpec)
    (comment_id commenter_id post_id post_owner_id : Nat)
    (parent_comment_id : Option Nat) (s : SysState) :
    Option NotifRow × SysState :=
  let branch : Except PyErr (Option (Nat × NotifType)) :=
    if pyTruthyOpt parent_comment_id then
      match queryCommentUserId s.db (parent_comment_id.getD 0) with
      | .error e => .error e
      | .ok none => .ok none
      | .ok (some uid) =>
          if uid == 0 then .ok none
          else
            match scalarUserIdAttr uid with
            | .error e => .error e
            | .ok uid2 =>
                if uid2 != commenter_id then .ok (some (uid2, .reply))
                else .ok none
    else
      if commenter_id == post_owner_id then .ok none
      else .ok (some (post_owner_id, .comment))
  match branch with
  | .error _ => (none, s)
  | .ok none => (none, s)
  | .ok (some rt) =>
      match scalarOneOrNone (s.db.rows.filter (commentMatch rt.1 commenter_id post_id rt.2)) with
      | .error _ => (none, s)
      | .ok (some existing) =>
          let p := utcnowTick s
          let bumped := { existing with created_at := p.1 }
          let s1 := dbCommit (dbUpdateRow existing.id (fun r => { r with created_at := p.1 }) p.2)
          (some bumped, s1)
      | .ok none =>
          let commenter := s.db.users.find? (fun u => u.id == commenter_id)
          let nd : NotificationCreate :=
            { receiver_id := rt.1, sender_id := some commenter_id,
              sender_name := commenter.map (fun u => pyOrStr u.full_name u.username),
              type := rt.2, related_post_id := some post_id,
              content := some ("Comment ID: " ++ toString comment_id),
              send_email := true, send_push := true }
          match create_notification fs nd s with
          | (.ok row, s1) => (some row, s1)
          | (.error _, s1) => (none, s1)

/-! ## Read-state mutations (lines 522-629) -/

/-- `mark_as_read` (lines 522-564): select the row owned by the user; if it
was unread, flip `is_read`/`read_at` and commit.  The code then reads the
cached counter with `redis.get` (which exists) and either branch dies on a
method `RedisService` does not define: a present positive counter reaches
`redis.decr` (line 552), any other value falls through to
`redis.delete_pattern` (line 555) — both raise `AttributeError`, so the
except at lines 561-564 logs, rolls back (a no-op after the commit) and
returns `None`.  The cached counter is therefore never decremented and the
unread path always returns `None`; only the already-read path returns the
row. -/
def mark_as_read (notification_id user_id : Nat) (s : SysState) :
    Option NotifRow × SysState :=
  match scalarOneOrNone (s.db.rows.filter
      (fun r => r.id == notification_id && r.receiver_id == user_id)) with
  | .error _ => (none, dbRollback s)
  | .ok none => (none, s)
  | .ok (some n) =>
      if n.is_read then (some n, s)
      else
        let p := utcnowTick s
        let s1 := dbCommit (dbUpdateRow n.id
          (fun r => { r with is_read := true, read_at := some p.1 }) p.2)
        let _ := redisMissing "decr or delete_pattern"
        (none, dbRollback s1)

/-- `mark_all_as_read` (lines 566-599): one bulk UPDATE of the unread rows
of the user, commit, and — only when at least one row was updated —
`redis.set(unread_key, 0)` (which exists and resets the counter cache).
The next call, `redis.delete_pattern` (line 590), does not exist, so the
except at lines 596-599 logs, rolls back (a no-op) and returns 0 — the
function never returns the updated row count when it updated anything.
When no row was updated it skips the cache entirely and returns 0. -/
def mark_all_as_read (user_id : Nat) (s : SysState) : Nat × SysState :=
  let p := utcnowTick s
  let updated_count :=
    (p.2.db.rows.filter (fun r => r.receiver_id == user_id && !r.is_read)).length
  let s1 := dbCommit { p.2 with
    db := { p.2.db with
              rows := p.2.db.rows.map (fun r =>
                if r.receiver_id == user_id && !r.is_read then
                  { r with is_read := true, read_at := some p.1 }
                else r) } }
  if updated_count > 0 then
    let s2 := redisSetUnread user_id 0 s1
    let _ := redisMissing "delete_pattern"
    (0, dbRollback s2)
  else (updated_count, s1)

/-- The durable unread count: `count(*) where receiver=user and not is_read`. -/
def dbUnread (db : Db) (user_id : Nat) : Nat :=
  (db.rows.filter (fun r => r.receiver_id == user_id && !r.is_read)).length

/-- The value `get_unread_count` (lines 601-629) returns.  `redis.get`
exists, so a present counter key is returned as-is.  On a miss the durable
recount is computed, but the subsequent `redis.setex` (line 623) does not
exist on `RedisService`, so the `AttributeError` reaches the except at
lines 627-629, which returns 0 — a cache miss always reads as 0, whatever
the durable count. -/
def unreadCountValue (s : SysState) (user_id : Nat) : Int :=
  match alookup s.cache.unread user_id with
  | some v => v
  | none => 0

/-! ## get_latest_notifications (lines 766-812) -/

/-- `get_latest_notifications` (lines 766-812): the first cache call of the
try block is `await self.redis.lrange(cache_key, 0, limit - 1)` (line 774),
a method `RedisService` does not define, so `AttributeError` is raised
before anything else happens and the except at lines 810-812 logs and
returns `[]`.  Neither the cache-hit decode nor the database rebuild (which
would itself die on `redis.lpush` at line 803) is reachable, and no state
is changed. -/
def get_latest_notifications (user_id limit : Nat) (s : SysState) :
    List NotificationResponse × SysState :=
  let _ := (user_id, limit)
  let _ := redisMissing "lrange"
  (([] : List NotificationResponse), s)

/-! ## cleanup_old_notifications (lines 830-868) -/

/-- One model day is 1440 clock ticks. -/
def dayTicks : Nat := 1440

/-- `datetime.utcnow().replace(hour=0, minute=0, second=0, microsecond=0)`:
midnight of the current day. -/
def startOfDay (t : Nat) : Nat := t / dayTicks * dayTicks

/-- `cleanup_old_notifications(days=30)` (lines 830-868).  The cutoff is
computed as `utcnow().replace(hour=0, ...)` — midnight of the current day;
the `days` parameter is used only in the log line.  Every notification with
`created_at < cutoff` is deleted and committed; the per-user invalidation
loop then calls `redis.delete_pattern` (line 858), which `RedisService`
does not define, so its first iteration raises `AttributeError` and the
except at lines 865-868 logs, rolls back (a no-op) and returns 0 — no cache
is invalidated and the deleted count is never reported.  With nothing to
delete it returns 0 without touching Redis. -/
def cleanup_old_notifications (days : Nat) (s : SysState) : Nat × SysState :=
  let _ := days
  let p := utcnowTick s
  let cutoff := startOfDay p.1
  let old := p.2.db.rows.filter (fun r => r.created_at < cutoff)
  if old.length > 0 then
    let s1 := dbCommit { p.2 with
      db := { p.2.db with
                rows := p.2.db.rows.filter (fun r => !(r.created_at < cutoff)) } }
    let _ := redisMissing "delete_pattern"
    (0, dbRollback s1)
  else (old.length, p.2)


/-! ## WebSocketManager (app/websocket/manager.py)

Channels are identified by `Nat`.  CPython set iteration order is fixed for
an unmodified set; the two `connections.copy()` calls in
`send_personal_notification` happen with no mutation in between, so both
iterate in the same order — modelled by one channel list per user.  A
channel's send behaviour is a parameter: success (`_send_message` returns
`True`), a generic exception (caught inside `_send_message`, which returns
`False`), or `WebSocketDisconnect` (re-raised, surfacing as an exception in
the `asyncio.gather(..., return_exceptions=True)` results). -/

/-- Outcome of `websocket.send_text` for one channel. -/
inductive SendOutcome
  | success
  | genericFailure
  | disconnectFailure
deriving DecidableEq, Repr

/-- `active_connections : Dict[int, Set[WebSocket]]` (a defaultdict). -/
structure WsState where
  active_connections : List (Nat × List Nat)
deriving DecidableEq, Repr

/-- The channel set registered for a user (`.get(user_id, set())`). -/
def connsOf (s : WsState) (u : Nat) : List Nat :=
  (alookup s.active_connections u).getD []

/-- `connect` (lines 15-22): `accept` then `active_connections[user_id].add
(websocket)` under the lock (defaultdict inserts an empty set first). -/
def wsConnect (u c : Nat) (s : WsState) : WsState :=
  let cur := connsOf s u
  let cur2 := if cur.contains c then cur else cur ++ [c]
  { active_connections := aset s.active_connections u cur2 }

/-- `disconnect` (lines 24-32): `discard` the channel and delete the user
entry if its set became empty. -/
def wsDisconnect (u c : Nat) (s : WsState) : WsState :=
  match alookup s.active_connections u with
  | none => s
  | some cur =>
      let cur2 := cur.filter (fun x => x != c)
      if cur2.isEmpty then
        { active_connections := aremove s.active_connections u }
      else
        { active_connections := aset s.active_connections u cur2 }

/-- Result of `send_personal_notification`: the channels a send task was
created for (line 48-50), the channels whose send succeeded, and the state
after the eviction loop (lines 56-60). -/
structure SendResult where
  attempted : List Nat
  delivered : List Nat
  state : WsState
deriving DecidableEq, Repr

/-- `send_personal_notification` (lines 34-60): if the user has no
registered channels, return; otherwise create one `_send_message` task per
channel, gather all results (`return_exceptions=True`, so no
short-circuit), then evict exactly the channels whose result is an
exception (`isinstance(result, Exception)`) via `discard` — a `False`
result (generic send failure swallowed by `_send_message`) is not an
exception and is not evicted.  The eviction writes
`active_connections[user_id]` in place and never deletes the entry, even
when the set becomes empty. -/
def send_personal_notification (behavior : Nat → SendOutcome) (u : Nat)
    (s : WsState) : SendResult :=
  let conns := connsOf s u
  if conns.isEmpty then ⟨[], [], s⟩
  else
    let delivered := conns.filter (fun c => behavior c == .success)
    let survivors := conns.filter (fun c => behavior c != .disconnectFailure)
    ⟨conns, delivered,
     { active_connections := aset s.active_connections u survivors }⟩

/-- `get_connected_users_count` (lines 96-99). -/
def get_connected_users_count (s : WsState) : Nat :=
  s.active_connections.length

/-- `get_total_connections_count` (lines 101-107). -/
def get_total_connections_count (s : WsState) : Nat :=
  (s.active_connections.map (fun p => p.2.length)).sum

/-! ## LikeService (app/services/like_service.py)

Redis keys are plain strings here; the cache is the set of currently
present keys.  `delete_pattern` removes every key matched by a glob
pattern. -/

/-- Glob matching with `*` wildcards (Redis `KEYS`-style patterns, as the
source's intended `delete_pattern` primitive would use): a `*` consumes
any number of key characters.  Structural recursion on the pattern. -/
def globChars : List Char → List Char → Bool
  | [], ks => ks.isEmpty
  | p :: ps, ks =>
      if p = Char.ofNat 42 then
        (List.range (ks.length + 1)).any (fun i => globChars ps (ks.drop i))
      else
        match ks with
        | [] => false
        | k :: ks2 => p == k && globChars ps ks2

/-- Glob match of a pattern against a key. -/
def globMatch (pat key : String) : Bool :=
  globChars pat.toList key.toList

/-- A row of the `likes` table. -/
structure LikeRow where
  id : Nat
  user_id : Nat
  post_id : Option Nat
  comment_id : Option Nat
  like_type : Option String
deriving DecidableEq, Repr

/-- `LikeCreate` (like_schema.py): `like_type` is required and its enum
values are the nonempty strings `post` / `comment` (always truthy). -/
structure LikeCreate where
  user_id : Nat
  post_id : Option Nat := none
  comment_id : Option Nat := none
  like_type : String
deriving DecidableEq, Repr

/-- Side-effect trace of the like service. -/
inductive LEvent
  | likeCommitEvt
  | countCommitEvt
  | likeCacheDel (key : String)
deriving DecidableEq, Repr

/-- Whole state the like service touches: like rows (with session
pending), the per-id counters (`posts.like_count`, `comments.like_count`),
and the set of live Redis keys. -/
structure LikeState where
  likes : List LikeRow
  pendingLikes : List LikeRow
  postCounts : List (Nat × Int)
  commentCounts : List (Nat × Int)
  cacheKeys : List String
  nextId : Nat
  ltrace : List LEvent
deriving DecidableEq, Repr

/-- SQL `UPDATE t SET like_count = like_count + d WHERE id = k`: touches
existing rows only. -/
def bumpCount (l : List (Nat × Int)) (k : Nat) (d : Int) : List (Nat × Int) :=
  l.map (fun p => if p.1 = k then (p.1, p.2 + d) else p)

/-- `redis.delete(key)` for the like service — `delete` is one of the four
methods `RedisService` really defines. -/
def likeDelKey (key : String) (s : LikeState) : LikeState :=
  { s with cacheKeys := s.cacheKeys.filter (fun k => k != key),
           ltrace := s.ltrace ++ [LEvent.likeCacheDel key] }

/-- `_get_existing_like` (lines 140-160): the WHERE clause always filters
on `user_id` and adds the post / comment condition only when the
corresponding argument is truthy; `scalar_one_or_none` errors are caught
inside and collapse to `None`. -/
def getExistingLike (user_id : Nat) (post_id comment_id : Option Nat)
    (s : LikeState) : Option LikeRow :=
  let found := s.likes.filter (fun r =>
    r.user_id == user_id &&
    (!pyTruthyOpt post_id || r.post_id == post_id) &&
    (!pyTruthyOpt comment_id || r.comment_id == comment_id))
  match scalarOneOrNone found with
  | .error _ => none
  | .ok o => o

/-- `_update_like_count` (lines 978-1033): bump the counter column of the
liked post or comment and commit; the following
`redis.delete_pattern(...)` (line 1007 / 1030) is a method `RedisService`
does not define, so it raises `AttributeError`, which the except at lines
1032-1033 logs and swallows — the counter column is updated but no cache
key is ever cleared here. -/
def updateLikeCount (post_id comment_id : Option Nat) (increment : Bool)
    (s : LikeState) : LikeState :=
  let d : Int := if increment then 1 else -1
  if pyTruthyOpt post_id then
    let pid := post_id.getD 0
    let s1 := { s with postCounts := bumpCount s.postCounts pid d,
                       ltrace := s.ltrace ++ [LEvent.countCommitEvt] }
    let _ := redisMissing "delete_pattern"
    s1
  else if pyTruthyOpt comment_id then
    let cid := comment_id.getD 0
    let s1 := { s with commentCounts := bumpCount s.commentCounts cid d,
                       ltrace := s.ltrace ++ [LEvent.countCommitEvt] }
    let _ := redisMissing "delete_pattern"
    s1
  else s

/-- The `comment:{id}:like_count` cache key. -/
def commentLikeCountKey (cid : Nat) : String :=
  "comment:" ++ toString cid ++ ":like_count"

/-- `_update_like_cache` (lines 1035-1069): the entity branch first calls
`redis.delete` on the liker's `like:user:...` key — `delete` exists, so
that single key is removed — and then `redis.delete_pattern` (line 1047 /
1054), which `RedisService` does not define; the `AttributeError` is
caught by the except at lines 1068-1069 and swallowed, aborting the rest
of the function.  The entity like-count/like-stats keys, the liker's keys
and the global `trending_posts:*` / `recent_likes:*` patterns are
therefore never cleared.  With neither a post nor a comment target the
function reaches the user-scoped `delete_pattern` (line 1058) first and
clears nothing. -/
def updateLikeCache (user_id : Nat) (post_id comment_id : Option Nat)
    (s : LikeState) : LikeState :=
  if pyTruthyOpt post_id then
    let pid := post_id.getD 0
    let s1 := likeDelKey
      ("like:user:" ++ toString user_id ++ ":post:" ++ toString pid) s
    let _ := redisMissing "delete_pattern"
    s1
  else if pyTruthyOpt comment_id then
    let cid := comment_id.getD 0
    let s1 := likeDelKey
      ("like:user:" ++ toString user_id ++ ":comment:" ++ toString cid) s
    let _ := redisMissing "delete_pattern"
    s1
  else
    let _ := redisMissing "delete_pattern"
    s

/-- `create_like` (lines 28-82): validate that exactly one of post/comment
is targeted, reject an existing like, insert and commit the row, then
`_update_like_count` and `_update_like_cache` run synchronously before the
return.  The except clause rolls back and re-raises. -/
def create_like (ld : LikeCreate) (s : LikeState) :
    Except PyErr LikeRow × LikeState :=
  if pyTruthyOpt ld.post_id && pyTruthyOpt ld.comment_id then
    (.error (.valueError "Cannot like both post and comment at once"),
     { s with pendingLikes := [] })
  else if !pyTruthyOpt ld.post_id && !pyTruthyOpt ld.comment_id then
    (.error (.valueError "Must like either a post or comment"),
     { s with pendingLikes := [] })
  else
    match getExistingLike ld.user_id ld.post_id ld.comment_id s with
    | some _ =>
        (.error (.valueError "Already liked"), { s with pendingLikes := [] })
    | none =>
        let row : LikeRow :=
          { id := s.nextId, user_id := ld.user_id, post_id := ld.post_id,
            comment_id := ld.comment_id, like_type := some ld.like_type }
        let s1 := { s with likes := s.likes ++ [row], nextId := s.nextId + 1,
                           ltrace := s.ltrace ++ [LEvent.likeCommitEvt] }
        let s2 := updateLikeCount ld.post_id ld.comment_id true s1
        let s3 := updateLikeCache ld.user_id ld.post_id ld.comment_id s2
        (.ok row, s3)

/-! ## Event classification and ordering predicates -/

/-- Cache-update events of the creation pipeline (latest-list push, trim,
counter increment). -/
def Event.isCacheUpdate : Event → Bool
  | .cacheLpush _ => true
  | .cacheLtrim _ => true
  | .cacheIncr _ => true
  | _ => false

/-- External sink (email/push) enqueue events. -/
def Event.isSink : Event → Bool
  | .emailEnqueue _ => true
  | .pushEnqueue _ => true
  | _ => false

/-! ## Operation sequences and invariants for the unread counter -/

/-- A step of the workload in the counter-consistency property: a
notification creation or an individual mark-as-read. -/
inductive NotifOp
  | createOp (nd : NotificationCreate)
  | markReadOp (nid uid : Nat)
deriving Repr

/-- Run one operation (happy path: the cache store is reachable). -/
def applyOp (s : SysState) : NotifOp → SysState
  | .createOp nd => (create_notification noFail nd s).2
  | .markReadOp nid uid => (mark_as_read nid uid s).2

/-- Run a sequence of operations. -/
def applyOps (ops : List NotifOp) (s : SysState) : SysState :=
  ops.foldl applyOp s

/-- Two successive calls of `create_like_notification` for the same
(liker, post, owner) triple: the pair of (result, state) after the first
and after the second call. -/
def likeTwice (p l o : Nat) (s : SysState) :
    (Option NotifRow × SysState) × (Option NotifRow × SysState) :=
  let r1 := create_like_notification noFail p l o s
  (r1, create_like_notification noFail p l o r1.2)

/-- Well-formed session/database state: no uncommitted rows, primary keys
below the sequence counter and pairwise distinct. -/
def dbWF (db : Db) : Prop :=
  db.pending = [] ∧ (∀ r ∈ db.rows, r.id < db.nextId) ∧
    (db.rows.map (fun r => r.id)).Nodup

/-- The cached unread-counter key of a user is absent or holds 0.  This is
the only reachable shape within the program: nothing ever increments or
decrements the key (`incr`/`decr` do not exist on `RedisService`), and the
only write that exists is `mark_all_as_read` resetting it to 0. -/
def counterClean (s : SysState) (u : Nat) : Prop :=
  alookup s.cache.unread u = none ∨ alookup s.cache.unread u = some 0

/-! ## Concrete fixtures -/

/-- User 1 of the test fixture. -/
def uAlice : UserRow :=
  { id := 1, username := "alice", full_name := some "Alice", email := "a@x.com",
    profile_picture := none }

/-- User 2 of the test fixture. -/
def uBob : UserRow :=
  { id := 2, username := "bob", full_name := none, email := "b@x.com",
    profile_picture := some "pic" }

/-- User 3 of the test fixture. -/
def uCarol : UserRow :=
  { id := 3, username := "carol", full_name := some "Carol", email := "c@x.com",
    profile_picture := none }

/-- Empty base state with three users and one comment (id 10, authored by
user 1). -/
def baseState : SysState :=
  { db := { rows := [], users := [uAlice, uBob, uCarol],
            comments := [{ id := 10, user_id := 1 }], pending := [], nextId := 1 },
    cache := { unread := [] },
    clock := 0, trace := [] }

/-- A like-notification event from user 1 to user 2 about post `i`. -/
def likeNd (i : Nat) : NotificationCreate :=
  { receiver_id := 2, sender_id := some 1, sender_name := some "Alice",
    type := .like, related_post_id := some i }

/-- The state after creating 15 notifications for user 2 in sequence. -/
def state15 : SysState :=
  (List.range 15).foldl (fun acc i => (create_notification noFail (likeNd i) acc).2)
    baseState

/-- Failure injection: the durable commit raises. -/
def fsCommit : FailSpec := { commitFails := true }

/-- Failure injection: the websocket push raises. -/
def fsWs : FailSpec := { wsFails := true }

/-- A drifted state: user 2 has no unread rows but a cached counter of 5. -/
def driftState : SysState :=
  { baseState with cache := { baseState.cache with unread := [(2, 5)] } }

/-- A notification created at 18:00 yesterday (300 in-day ticks before
midnight), receiver 2. -/
def fxOldRow : NotifRow :=
  { id := 1, receiver_id := 2, sender_id := some 1, type := "like",
    content := "Alice liked your post", related_post_id := some 5,
    is_read := false, created_at := 99 * dayTicks + 1080, read_at := none }

/-- State at noon of day 100 holding only `fxOldRow` (0.75 days old). -/
def cleanupState : SysState :=
  { db := { rows := [fxOldRow], users := [], comments := [], pending := [],
            nextId := 2 },
    cache := { unread := [] },
    clock := 100 * dayTicks + 720, trace := [] }

/-- Three channels for user 1; channel 102 will fail. -/
def ws3 : WsState := { active_connections := [(1, [101, 102, 103])] }

/-- A send behaviour where exactly channel 102 fails with a generic
(non-disconnect) exception. -/
def behavior102 : Nat → SendOutcome :=
  fun c => if c == 102 then .genericFailure else .success

/-- Like-service fixture: comment 5 has 3 likes, and the cache holds the
liker's own-like key, the comment like-count key, global trending/recent
keys and an unrelated key. -/
def fxLikeState : LikeState :=
  { likes := [],
    pendingLikes := [],
    postCounts := [],
    commentCounts := [(5, 3)],
    cacheKeys := ["like:user:7:comment:5", "comment:5:like_count",
                  "trending_posts:today", "recent_likes:all", "unrelated"],
    nextId := 1,
    ltrace := [] }

/-- `LikeCreate` for user 7 liking comment 5. -/
def fxCommentLike : LikeCreate :=
  { user_id := 7, comment_id := some 5, like_type := "comment" }

/-! ## Helper lemmas -/

/-- Looking up the key just set returns the new value. -/
theorem alookup_aset_self {α : Type} (l : List (Nat × α)) (u : Nat) (v : α) :
    alookup (aset l u v) u = some v := by
  induction l with
  | nil => simp [aset, alookup]
  | cons hd t ih =>
      obtain ⟨k, w⟩ := hd
      by_cases hk : k = u
      · simp [aset, hk, alookup]
      · simp [aset, hk, alookup, ih]

/-- Setting one key leaves the lookup of any other key unchanged. -/
theorem alookup_aset_ne {α : Type} (l : List (Nat × α)) (u w : Nat) (v : α)
    (h : w ≠ u) : alookup (aset l u v) w = alookup l w := by
  have h2 : u ≠ w := Ne.symm h
  induction l with
  | nil => simp [aset, alookup, h2]
  | cons hd t ih =>
      obtain ⟨k, x⟩ := hd
      by_cases hk : k = u
      · subst hk
        simp [aset, alookup, h2]
      · simp [aset, hk, alookup, ih]

/-- An id-keyed row update leaves a list without the id unchanged. -/
theorem map_update_no_hit (l : List NotifRow) (nid : Nat)
    (f : NotifRow → NotifRow) (h : ∀ r ∈ l, r.id ≠ nid) :
    l.map (fun r => if r.id = nid then f r else r) = l := by
  induction l with
  | nil => rfl
  | cons a t ih =>
      have ha : a.id ≠ nid := h a (List.mem_cons_self a t)
      have ht : ∀ r ∈ t, r.id ≠ nid := fun r hr => h r (List.mem_cons_of_mem a hr)
      simp [ha, ih ht]

/-- `create_notification` never touches the Redis cache: it dies on the
nonexistent `redis.lpush` (or earlier), and the commit/websocket steps do
not write the cache. -/
theorem create_cache_untouched (fs : FailSpec) (nd : NotificationCreate)
    (s : SysState) :
    (create_notification fs nd s).2.cache = s.cache := by
  by_cases hc : fs.commitFails <;> by_cases hw : fs.wsFails <;>
    simp [create_notification, hc, hw, utcnowTick, dbAdd, dbCommit,
      notifRaise, dbRollback]

/-- `mark_as_read` never touches the Redis cache: the decrement path dies
on the nonexistent `redis.decr` / `redis.delete_pattern` before any cache
write. -/
theorem markread_cache_untouched (nid uid : Nat) (s : SysState) :
    (mark_as_read nid uid s).2.cache = s.cache := by
  unfold mark_as_read
  cases hso : scalarOneOrNone (s.db.rows.filter
      (fun r => r.id == nid && r.receiver_id == uid)) with
  | error e => simp [dbRollback]
  | ok o =>
      cases o with
      | none => rfl
      | some n =>
          by_cases hr : n.is_read <;>
            simp [hr, utcnowTick, dbCommit, dbUpdateRow, dbRollback]

/-- One workload step leaves the cache untouched. -/
theorem applyOp_cache_untouched (s : SysState) (op : NotifOp) :
    (applyOp s op).cache = s.cache := by
  cases op with
  | createOp nd => exact create_cache_untouched noFail nd s
  | markReadOp nid uid => exact markread_cache_untouched nid uid s

/-- A whole workload of creations and mark-as-reads leaves the cache
untouched. -/
theorem applyOps_cache_untouched (ops : List NotifOp) (s : SysState) :
    (applyOps ops s).cache = s.cache := by
  induction ops generalizing s with
  | nil => rfl
  | cons op rest ih =>
      simp only [applyOps, List.foldl_cons]
      have h1 := ih (applyOp s op)
      simp only [applyOps] at h1
      rw [h1, applyOp_cache_untouched]

/-! ## Claim theorems -/

/-- Claim C2 (code bug in the source): a reply to comment 10 (authored by
user 1) on post 5 (owned by user 2) by replier 3 creates no notification at
all and leaves the state untouched — `select(Comment.user_id)` returns the
bare author id, the subsequent `parent_comment.user_id` attribute access
raises `AttributeError` on the int, and the catch-all handler returns
`None`.  The second conjunct shows the parent comment exists and its author
(1) differs from the replier (3), i.e. the claim expects exactly one
`reply` notification to user 1 here. -/
theorem C2_reply_creates_no_notification :
    create_comment_notification noFail 42 3 5 2 (some 10) baseState
        = (none, baseState) ∧
    queryCommentUserId baseState.db 10 = .ok (some 1) := ⟨rfl, rfl⟩

/-- Claim C5 (code bug in the source): after creating 15 notifications for
user 2 in sequence (each committing its row), `get_latest_notifications(2,
limit=10)` returns `[]` instead of 10 items and performs no rebuild — its
very first cache call, `redis.lrange`, is a method `RedisService` does not
define, so the `AttributeError` is caught by the outer except, which
returns an empty list; the latest-list cache was never populated in the
first place because `redis.lpush` does not exist either. -/
theorem C5_get_latest_after_15_creates_is_empty :
    state15.db.rows.length = 15 ∧
    (get_latest_notifications 2 10 state15).1 = [] ∧
    (get_latest_notifications 2 10 state15).2 = state15 := ⟨rfl, rfl, rfl⟩

/-- Claim C7 (code bug in the source): user 1 has exactly one channel and
its send raises `WebSocketDisconnect`; after `send_personal_notification`
the tracking structure still contains the user entry, now mapped to the
empty set — the eviction path discards the channel but never removes an
emptied entry, violating the no-empty-entry invariant. -/
theorem C7_eviction_leaves_empty_entry :
    (send_personal_notification (fun _ => SendOutcome.disconnectFailure) 1
        { active_connections := [(1, [101])] }).state.active_connections
        = [(1, [])] ∧
    get_connected_users_count
      (send_personal_notification (fun _ => SendOutcome.disconnectFailure) 1
        { active_connections := [(1, [101])] }).state = 1 := ⟨rfl, rfl⟩

/-- Claim C9 (code bug in the source): invoked with a 30-day horizon on a
state whose only notification is 0.75 days old, the sweep deletes it (the
cutoff is midnight of the current day and the `days` argument is never
used, although the notification is far newer than the horizon — last
conjunct), then dies on the nonexistent `redis.delete_pattern` in the
invalidation loop: it reports 0 deletions and invalidates no caches. -/
theorem C9_cleanup_ignores_days_horizon :
    (cleanup_old_notifications 30 cleanupState).1 = 0 ∧
    (cleanup_old_notifications 30 cleanupState).2.db.rows = [] ∧
    (cleanup_old_notifications 30 cleanupState).2.cache = cleanupState.cache ∧
    cleanupState.clock < fxOldRow.created_at + 30 * dayTicks :=
  ⟨rfl, rfl, rfl, by decide⟩

/-- Claim C1 counterexample: for liker 1, owner 2, post 5 on the empty base
state, two `create_like_notification` calls leave exactly one matching row,
but the cached unread counter of the owner is still absent and reads 0
before and after — it increases by 0, not 1 — and the first call returns
`None` (its `create_notification` raised at the nonexistent `redis.lpush`
after the commit, so the counter `incr` never ran). -/
theorem C1_counterexample :
    ((likeTwice 5 1 2 baseState).2.2.db.rows.filter (likeMatch 2 1 5)).length
        = 1 ∧
    alookup (likeTwice 5 1 2 baseState).2.2.cache.unread 2 = none ∧
    unreadCountValue (likeTwice 5 1 2 baseState).2.2 2 = 0 ∧
    unreadCountValue baseState 2 = 0 ∧
    (likeTwice 5 1 2 baseState).1.1 = none := ⟨rfl, rfl, rfl, rfl, rfl⟩

/-- Claim C3 counterexample: the post-commit cache write of
`create_notification` (the `lpush` of the latest-list) fails —
`RedisService` does not define `lpush` — and the failure propagates as a
fatal error of the operation: the call returns the exception, not the
notification, even though the row was durably committed (second
conjunct), refuting `the failure is never propagated as a fatal error`. -/
theorem C3_counterexample :
    (create_notification noFail (likeNd 0) baseState).1
        = .error .attrError ∧
    (create_notification noFail (likeNd 0) baseState).2.db.rows.length = 1 :=
  ⟨rfl, rfl⟩

/-- Claim C4 counterexample: the trace of `create_notification` at a
concrete input is durable commit followed by the realtime push and nothing
else, and the call fails — so the realtime push is not preceded by any
cache update and the sink enqueue never happens, refuting the claimed
order durable commit → cache update → realtime push → external sink with
each step gated on the previous one. -/
theorem C4_counterexample :
    (create_notification noFail (likeNd 0) baseState).2.trace
        = [Event.dbCommitEvt, Event.wsSend 2 "new" 1] ∧
    ((create_notification noFail (likeNd 0) baseState).2.trace.filter
        Event.isCacheUpdate) = [] ∧
    (create_notification noFail (likeNd 0) baseState).1 = .error .attrError :=
  ⟨rfl, rfl, rfl⟩

/-- Claim C6 counterexample: user 1 has channels 101, 102, 103 and channel
102 fails with a generic (non-disconnect) exception; `send_personal`
delivers to 101 and 103, but 102 is not removed — the channel set and the
total-connections count are unchanged at 3, refuting `every failed channel
is removed` and the claimed count of 2. -/
theorem C6_counterexample :
    (send_personal_notification behavior102 1 ws3).delivered = [101, 103] ∧
    connsOf (send_personal_notification behavior102 1 ws3).state 1
        = [101, 102, 103] ∧
    get_total_connections_count (send_personal_notification behavior102 1 ws3).state
        = 3 := ⟨rfl, rfl, rfl⟩

/-- Claim C8 counterexample: on a state where user 2 has no unread rows but
a (drifted) cached counter of 5, `mark_all_as_read` updates nothing and
leaves the counter cache at 5 — the reset to 0 is conditional on at least
one row being updated, refuting `resets the counter cache to 0
unconditionally`. -/
theorem C8_counterexample :
    (mark_all_as_read 2 driftState).1 = 0 ∧
    alookup (mark_all_as_read 2 driftState).2.cache.unread 2 = some 5 :=
  ⟨rfl, rfl⟩

/-- Claim C1 (amended): for a liker `l`, owner `o` with `l ≠ o` and a post
`p` with no pre-existing like-notification for (receiver `o`, sender `l`,
post `p`), calling `create_like_notification` twice yields exactly one
matching Notification row; the first call commits the row and pushes it in
real time but returns `None` — its `create_notification` raises
`AttributeError` at the nonexistent `redis.lpush` after the commit and the
push, so the unread counter is never incremented; the second call finds the
row, bumps only its `created_at` and returns it, its only side effect being
the bump commit (no counter increment, no realtime push with action `new`).
Across both calls the cache is untouched: the unread counter rises by 0,
not 1. -/
theorem C1_like_dedup_idempotent (p l o : Nat) (s : SysState)
    (hne : l ≠ o)
    (hnone : s.db.rows.filter (likeMatch o l p) = [])
    (hwf : dbWF s.db) :
    ((likeTwice p l o s).2.2.db.rows.filter (likeMatch o l p)).length = 1 ∧
    (likeTwice p l o s).2.2.db.rows.length = s.db.rows.length + 1 ∧
    (likeTwice p l o s).1.1 = none ∧
    (likeTwice p l o s).1.2.db.rows.filter (likeMatch o l p)
        = [mkRow s.db.nextId (likeNdFor p l o s) s.clock] ∧
    (likeTwice p l o s).2.1
        = some { mkRow s.db.nextId (likeNdFor p l o s) s.clock with
                 created_at := s.clock + 1 } ∧
    (likeTwice p l o s).2.2.cache = s.cache ∧
    (likeTwice p l o s).1.2.trace
        = s.trace ++ [Event.dbCommitEvt, Event.wsSend o "new" s.db.nextId] ∧
    (likeTwice p l o s).2.2.trace
        = (likeTwice p l o s).1.2.trace ++ [Event.dbCommitEvt] := by
  obtain ⟨hpend, hids, -⟩ := hwf
  have hno : ∀ r ∈ s.db.rows, r.id ≠ s.db.nextId :=
    fun r hr => Nat.ne_of_lt (hids r hr)
  refine ⟨?_, ?_, ?_, ?_, ?_, ?_, ?_, ?_⟩ <;>
    simp [likeTwice, create_like_notification, likeNdFor, hne, hnone,
      scalarOneOrNone, create_notification, noFail, utcnowTick, dbAdd,
      dbCommit, dbUpdateRow, notifRaise, dbRollback, hpend, mkRow, likeMatch,
      NotifType.value, List.filter_append, List.map_append,
      map_update_no_hit _ _ _ hno, List.append_assoc]

/-- Witness for C1: liker 1, owner 2, post 5 on the empty base state. -/
theorem C1_witness :
    (1 : Nat) ≠ 2 ∧
    ((likeTwice 5 1 2 baseState).2.2.db.rows.filter (likeMatch 2 1 5)).length
        = 1 :=
  ⟨by decide,
   (C1_like_dedup_idempotent 5 1 2 baseState (by decide) rfl
      ⟨rfl, by decide, by decide⟩).1⟩

/-- Claim C3 (amended): a failed post-commit cache write inside
`create_notification` is NOT swallowed — and with the shipped
`RedisService` it always fails, because `lpush` is not defined on it: the
catch-all handler logs, rolls back (a no-op for the already-committed
row) and re-raises the `AttributeError`, so `create_notification`
propagates the cache failure as a fatal error instead of returning the
durably committed notification, which remains in the store (second and
third conjuncts). -/
theorem C3_cache_write_failure_propagates (nd : NotificationCreate)
    (s : SysState) :
    (create_notification noFail nd s).1 = .error .attrError ∧
    (create_notification noFail nd s).2.db.rows
        = s.db.rows ++ s.db.pending ++ [mkRow s.db.nextId nd s.clock] ∧
    (create_notification noFail nd s).2.db.pending = [] := by
  refine ⟨?_, ?_, ?_⟩ <;>
    simp [create_notification, noFail, utcnowTick, dbAdd, dbCommit,
          notifRaise, dbRollback, redisMissing]

/-- Claim C4 (amended): the side effects of `create_notification` happen
in the order durable commit → realtime push (action `new`), and the
pipeline then raises at the nonexistent `redis.lpush`, so the cache-update
and external-sink steps never run and the call fails; a commit failure
leaves no trace events and no committed row, and a websocket failure stops
after the commit — no cache or realtime side effect ever fires for a
notification that did not durably commit. -/
theorem C4_effect_order (nd : NotificationCreate) (s : SysState) :
    (create_notification noFail nd s).2.trace
        = s.trace ++ [Event.dbCommitEvt,
            Event.wsSend nd.receiver_id "new" s.db.nextId] ∧
    (create_notification noFail nd s).1 = .error .attrError ∧
    ((create_notification noFail nd s).2.trace.filter Event.isCacheUpdate)
        = s.trace.filter Event.isCacheUpdate ∧
    ((create_notification noFail nd s).2.trace.filter Event.isSink)
        = s.trace.filter Event.isSink ∧
    (create_notification fsCommit nd s).2.trace = s.trace ∧
    (create_notification fsCommit nd s).2.db.rows = s.db.rows ∧
    (create_notification fsWs nd s).2.trace = s.trace ++ [Event.dbCommitEvt] := by
  refine ⟨?_, ?_, ?_, ?_, ?_, ?_, ?_⟩ <;>
    simp [create_notification, noFail, fsCommit, fsWs, utcnowTick, dbAdd,
          dbCommit, notifRaise, dbRollback, redisMissing, mkRow,
          List.filter_append, Event.isCacheUpdate, Event.isSink,
          List.append_assoc]

/-- Claim C6 (amended): `send_personal_notification` attempts a send on
every registered channel of the user (failures are collected by
`asyncio.gather(..., return_exceptions=True)`, never short-circuited) and
the payload reaches every channel whose send succeeds; afterwards exactly
the channels whose send raised `WebSocketDisconnect` are removed from the
user's set — a channel failing with any other exception is logged inside
`_send_message` (which returns `False`, not an exception) and stays
registered — other users' sets are untouched, and on a single-user state
the total-connections count equals the number of surviving channels. -/
theorem C6_per_channel_isolation (b : Nat → SendOutcome) (u : Nat)
    (s : WsState) :
    (send_personal_notification b u s).attempted = connsOf s u ∧
    (send_personal_notification b u s).delivered
        = (connsOf s u).filter (fun c => b c == .success) ∧
    connsOf (send_personal_notification b u s).state u
        = (connsOf s u).filter (fun c => b c != .disconnectFailure) ∧
    (∀ v, v ≠ u → connsOf (send_personal_notification b u s).state v
        = connsOf s v) ∧
    (∀ conns : List Nat,
        get_total_connections_count
            (send_personal_notification b u
              { active_connections := [(u, conns)] }).state
          = ((conns.filter (fun c => b c != .disconnectFailure)).length)) := by
  refine ⟨?_, ?_, ?_, ?_, ?_⟩
  · by_cases h : (connsOf s u).isEmpty <;>
      simp_all [send_personal_notification, List.isEmpty_iff]
  · by_cases h : (connsOf s u).isEmpty <;>
      simp_all [send_personal_notification, List.isEmpty_iff]
  · by_cases h : (connsOf s u).isEmpty
    · simp_all [send_personal_notification, List.isEmpty_iff]
    · simp only [send_personal_notification, h, if_neg, Bool.false_eq_true,
        not_false_iff, if_false]
      simp [connsOf, alookup_aset_self, h]
  · intro v hv
    by_cases h : (connsOf s u).isEmpty
    · simp [send_personal_notification, h]
    · simp only [send_personal_notification, h, if_false, Bool.false_eq_true]
      simp [connsOf, alookup_aset_ne _ _ _ _ hv]
  · intro conns
    by_cases h : conns.isEmpty
    · have : conns = [] := List.isEmpty_iff.mp h
      subst this
      simp [send_personal_notification, connsOf, alookup,
            get_total_connections_count]
    · simp [send_personal_notification, connsOf, alookup, h, aset,
            get_total_connections_count]

/-- Claim C8 (amended): nothing in the program ever increments or
decrements the cached unread counter — notification creation dies at the
nonexistent `redis.lpush` before its `incr`, and `mark_as_read` dies at
the nonexistent `redis.decr`/`redis.delete_pattern` — so for any sequence
of creations and individual mark-as-read calls run on a state whose
counter key is absent or 0, a final `mark_all_as_read` leaves the counter
reading exactly 0 (an absent key reads as 0 because `get_unread_count`'s
recount path dies at the nonexistent `redis.setex` and returns 0); and
whenever `mark_all_as_read` updates at least one row it resets the counter
cache to 0 via the working `redis.set` (then dies at `delete_pattern` and
returns 0), while with no row updated it leaves the cache untouched rather
than resetting unconditionally. -/
theorem C8_counter_zero_after_mark_all (ops : List NotifOp) (u : Nat)
    (s : SysState) (hclean : counterClean s u) :
    unreadCountValue (mark_all_as_read u (applyOps ops s)).2 u = 0 ∧
    (∀ t : SysState, ∀ v : Nat, 0 < dbUnread t.db v →
        alookup (mark_all_as_read v t).2.cache.unread v = some 0) := by
  constructor
  · have hcache := applyOps_cache_untouched ops s
    simp only [mark_all_as_read, utcnowTick]
    by_cases hc : 0 < ((applyOps ops s).db.rows.filter
        (fun r => r.receiver_id == u && !r.is_read)).length
    · rw [if_pos hc]
      simp [unreadCountValue, redisSetUnread, dbRollback, dbCommit,
        alookup_aset_self]
    · rw [if_neg hc]
      rcases hclean with h | h <;>
        simp [unreadCountValue, dbCommit, hcache, h]
  · intro t v hpos
    simp only [mark_all_as_read, utcnowTick]
    by_cases hc : 0 < (t.db.rows.filter
        (fun r => r.receiver_id == v && !r.is_read)).length
    · rw [if_pos hc]
      simp [redisSetUnread, dbRollback, dbCommit, alookup_aset_self]
    · exact absurd (by simpa [dbUnread] using hpos) hc

/-- Witness for C8: create one notification for user 2 (its row commits
even though the call raises), mark it read, then mark-all; the counter
reads 0. -/
theorem C8_witness :
    unreadCountValue (mark_all_as_read 2 (applyOps
        [NotifOp.createOp (likeNd 0), NotifOp.markReadOp 1 2] baseState)).2 2
      = 0 :=
  (C8_counter_zero_after_mark_all
      [NotifOp.createOp (likeNd 0), NotifOp.markReadOp 1 2] 2 baseState
      (Or.inl rfl)).1

/-- Claim C10 (code bug in the source): user 7 likes comment 5 while the
cache holds the liker's own-like key, the comment like-count key and
global trending/recent keys; `create_like` returns the committed like, but
the only key removed is `like:user:7:comment:5` (via the working
`redis.delete`): both `_update_like_count` and `_update_like_cache` die on
the nonexistent `redis.delete_pattern` (each swallows the error), so the
comment's like-count key and the keys matching `trending_posts:*` and
`recent_likes:*` all survive the successful like — the claim expects them
to be absent. -/
theorem C10_invalidation_keys_survive :
    (create_like fxCommentLike fxLikeState).1
        = .ok { id := 1, user_id := 7, post_id := none, comment_id := some 5,
                like_type := some "comment" } ∧
    (create_like fxCommentLike fxLikeState).2.cacheKeys
        = ["comment:5:like_count", "trending_posts:today", "recent_likes:all",
           "unrelated"] ∧
    commentLikeCountKey 5 ∈ (create_like fxCommentLike fxLikeState).2.cacheKeys ∧
    globMatch "trending_posts:*" "trending_posts:today" = true ∧
    globMatch "recent_likes:*" "recent_likes:all" = true := by
  exact ⟨rfl, rfl, by decide, by decide, by decide⟩

end App
